import Mathlib

/-!
Verification development for the VideoChat signaling subsystem.

Server side: a shallow embedding of `src/Backend/server.js` — the in-memory
room registry (`rooms : Map`), the `create-room` / `join-room` / `disconnect`
socket handlers, and the offer / answer / ice-candidate relay handlers.

Client side: a shallow embedding of `src/Backend/useWebRTC.ts` — the single
peer connection, the offer / answer / ICE-candidate handlers, the
`onicecandidate` emission, and `toggleScreenShare`.

JavaScript `Map` is modelled as an association list (its keys stay unique, so
`get` / `set` / `delete` translate to first-match lookup / in-place
replacement / removal of every binding of the key).  Socket.io delivery
semantics are modelled explicitly: each connected socket belongs to the room
named by its own id plus any room it joined via `socket.join`, and
`socket.to(room).emit` delivers to every connected member of `room` except
the sender, with no acknowledgment and no error to the sender.
-/

namespace VideoChat

/-- A room member, mirroring the object pushed in the `join-room` handler:
`{ id: socket.id, name: userName || defaultLabel, joinedAt: new Date() }`
(dates are modelled as natural-number clock readings). -/
structure RUser where
  id : String
  name : String
  joinedAt : Nat
deriving DecidableEq

/-- A room, mirroring `rooms.set(roomId, { id, users: [], createdAt })`. -/
structure Room where
  id : String
  users : List RUser
  createdAt : Nat
deriving DecidableEq

/-- The server's registry state: the `rooms` Map, as an association list. -/
structure ServerState where
  rooms : List (String × Room)
deriving DecidableEq

/-- `Map.get`: first binding of the key, if any. -/
def mapGet : List (String × Room) → String → Option Room
  | [], _ => none
  | (k, v) :: rest, key => if k == key then some v else mapGet rest key

/-- `Map.set`: replace the binding in place if the key is present, else append. -/
def mapSet : List (String × Room) → String → Room → List (String × Room)
  | [], key, v => [(key, v)]
  | (k, w) :: rest, key, v =>
      if k == key then (k, v) :: rest else (k, w) :: mapSet rest key v

/-- `Map.delete`: drop the binding of the key (keys are unique in a `Map`,
so removing every binding coincides with removing the one binding). -/
def mapDelete (m : List (String × Room)) (key : String) : List (String × Room) :=
  m.filter (fun p => p.1 != key)

/-- Per-socket server-side context: the socket's transport-assigned id, the
mutable `socket.roomId` / `socket.userName` fields the handlers attach, and
the socket.io rooms the socket has joined via `socket.join`. -/
structure SocketCtx where
  id : String
  roomId : Option String
  userName : Option String
  joined : List String
deriving DecidableEq

/-- Payloads of the events the server emits. -/
inductive SPayload where
  | errorMsg (message : String)
  | roomCreated (roomId : String)
  | roomJoined (roomId : String) (users : List RUser) (isInitiator : Bool)
  | userJoined (userId : String) (userName : String) (usersCount : Nat)
  | userLeft (userId : String) (userName : Option String) (usersCount : Nat)
  | offerMsg (offer : String) (senderId : String)
  | answerMsg (answer : String) (senderId : String)
  | iceMsg (candidate : String) (senderId : String)
deriving DecidableEq

/-- An emission performed by a handler: an acknowledgment callback to the
requesting client, a `socket.emit` back to the acting socket, or a
`socket.to(room).emit` into a socket.io room. -/
inductive Emit where
  | ack (p : SPayload)
  | toSelf (event : String) (p : SPayload)
  | toRoom (room : String) (event : String) (p : SPayload)
deriving DecidableEq

/-- `generateRoomId`: `Math.random().toString(36).substr(2, 9)`.  The random
draw is external; `rnd` stands for the base-36 rendering of the drawn number,
of which the code keeps 9 characters starting at index 2.  Nothing here reads
the registry: no collision with live rooms is detected. -/
def generateRoomId (rnd : String) : String :=
  (rnd.drop 2).take 9

/-- The `create-room` handler: stores a fresh empty room under the generated
id (a `Map.set`, which silently replaces any live room with the same id) and
acknowledges the caller with the id. -/
def createRoom (st : ServerState) (rnd : String) (now : Nat) :
    ServerState × List Emit :=
  let roomId := generateRoomId rnd
  ({ rooms := mapSet st.rooms roomId { id := roomId, users := [], createdAt := now } },
   [Emit.ack (SPayload.roomCreated roomId)])

/-- The duplicate-join branch computes `room.users[0].id === socket.id`;
the membership check guarantees `users` is nonempty there, and the
unreachable empty case is rendered as `false`. -/
def headIsSelf (users : List RUser) (sid : String) : Bool :=
  match users with
  | [] => false
  | u :: _ => u.id == sid

/-- The `join-room` handler.  In order: unknown room id errors with
"Room not found"; a duplicate join from a current member re-emits the
`room-joined` snapshot and changes nothing; a full room (2 members) errors
with "Room is full"; otherwise the member is appended (`userName` defaulting
positional when the sent name is the empty string, matching JS `||`),
the socket joins the socket.io room and records `roomId` / `userName`,
the other members are notified `user-joined`, and the joiner receives
`room-joined` with `isInitiator` true iff it is now the sole member. -/
def joinRoom (st : ServerState) (sock : SocketCtx) (roomId : String)
    (userName : String) (now : Nat) :
    ServerState × SocketCtx × List Emit :=
  match mapGet st.rooms roomId with
  | none => (st, sock, [Emit.toSelf "error" (SPayload.errorMsg "Room not found")])
  | some room =>
    match room.users.find? (fun u => u.id == sock.id) with
    | some _ =>
        (st, sock,
         [Emit.toSelf "room-joined"
            (SPayload.roomJoined roomId room.users (headIsSelf room.users sock.id))])
    | none =>
      if room.users.length ≥ 2 then
        (st, sock, [Emit.toSelf "error" (SPayload.errorMsg "Room is full")])
      else
        let name := if userName == "" then "User " ++ toString (room.users.length + 1)
                    else userName
        let user : RUser := { id := sock.id, name := name, joinedAt := now }
        let room2 := { room with users := room.users ++ [user] }
        let st2 : ServerState := { rooms := mapSet st.rooms roomId room2 }
        let sock2 := { sock with
                        roomId := some roomId
                        userName := some user.name
                        joined := sock.joined ++ [roomId] }
        (st2, sock2,
         [Emit.toRoom roomId "user-joined"
            (SPayload.userJoined sock.id user.name room2.users.length),
          Emit.toSelf "room-joined"
            (SPayload.roomJoined roomId room2.users (room2.users.length == 1))])

/-- The `disconnect` handler: if the socket had recorded a `roomId` and that
room is live, the member is filtered out, the others receive `user-left`,
and the room is deleted when it became empty. -/
def disconnectHandler (st : ServerState) (sock : SocketCtx) :
    ServerState × List Emit :=
  match sock.roomId with
  | none => (st, [])
  | some rid =>
    match mapGet st.rooms rid with
    | none => (st, [])
    | some room =>
      let remaining := room.users.filter (fun u => u.id != sock.id)
      let emits := [Emit.toRoom rid "user-left"
                      (SPayload.userLeft sock.id sock.userName remaining.length)]
      if remaining.length == 0 then
        ({ rooms := mapDelete st.rooms rid }, emits)
      else
        ({ rooms := mapSet st.rooms rid { room with users := remaining } }, emits)

/-- The `offer` relay handler: `socket.to(targetId).emit('offer', { offer,
senderId: socket.id })` — one room emission, no connectivity check, no
acknowledgment or error back to the sender. -/
def relayOffer (sock : SocketCtx) (offer targetId : String) : List Emit :=
  [Emit.toRoom targetId "offer" (SPayload.offerMsg offer sock.id)]

/-- The `answer` relay handler, same shape as the offer relay. -/
def relayAnswer (sock : SocketCtx) (answer targetId : String) : List Emit :=
  [Emit.toRoom targetId "answer" (SPayload.answerMsg answer sock.id)]

/-- The `ice-candidate` relay handler, same shape as the offer relay. -/
def relayIce (sock : SocketCtx) (candidate targetId : String) : List Emit :=
  [Emit.toRoom targetId "ice-candidate" (SPayload.iceMsg candidate sock.id)]

/-- Socket.io room membership: a socket is in the room named by its own id
and in every room it joined. -/
def inSocketRoom (s : SocketCtx) (room : String) : Bool :=
  s.id == room || room ∈ s.joined

/-- Socket.io delivery of `socket.to(room).emit`: the ids of every currently
connected socket that is in `room`, the sender excluded.  A message into a
room with no connected members is dropped with no feedback. -/
def deliverTo (conns : List SocketCtx) (senderId room : String) : List String :=
  (conns.filter (fun s => s.id != senderId && inSocketRoom s room)).map (fun s => s.id)

/-- Global server events, for reachability of registry states. -/
inductive SrvEvent where
  | connect (sid : String)
  | createEv (sid : String) (rnd : String) (now : Nat)
  | joinEv (sid : String) (roomId : String) (userName : String) (now : Nat)
  | disconnectEv (sid : String)
deriving DecidableEq

/-- The whole server: registry, connected sockets, and the log of emissions
(tagged with the acting socket's id). -/
structure World where
  st : ServerState
  socks : List SocketCtx
  trace : List (String × Emit)
deriving DecidableEq

/-- The world with no rooms and no connections, as at server start. -/
def World.init : World := { st := { rooms := [] }, socks := [], trace := [] }

/-- Replace the stored context of socket `sid`. -/
def putSock (socks : List SocketCtx) (sid : String) (s : SocketCtx) : List SocketCtx :=
  socks.map (fun t => if t.id == sid then s else t)

/-- One server event, dispatched to the matching handler. -/
def stepWorld (w : World) (e : SrvEvent) : World :=
  match e with
  | SrvEvent.connect sid =>
      { w with socks := w.socks ++ [{ id := sid, roomId := none, userName := none, joined := [] }] }
  | SrvEvent.createEv sid rnd now =>
      match w.socks.find? (fun s => s.id == sid) with
      | none => w
      | some _ =>
          let r := createRoom w.st rnd now
          { w with st := r.1, trace := w.trace ++ r.2.map (fun em => (sid, em)) }
  | SrvEvent.joinEv sid roomId userName now =>
      match w.socks.find? (fun s => s.id == sid) with
      | none => w
      | some s =>
          let r := joinRoom w.st s roomId userName now
          { st := r.1,
            socks := putSock w.socks sid r.2.1,
            trace := w.trace ++ r.2.2.map (fun em => (sid, em)) }
  | SrvEvent.disconnectEv sid =>
      match w.socks.find? (fun s => s.id == sid) with
      | none => w
      | some s =>
          let r := disconnectHandler w.st s
          { st := r.1,
            socks := w.socks.filter (fun t => t.id != sid),
            trace := w.trace ++ r.2.map (fun em => (sid, em)) }

/-- Run a list of server events from a world. -/
def runEvents (w : World) (es : List SrvEvent) : World :=
  es.foldl stepWorld w

/-- A media track: its identity and its kind ("audio" / "video"). -/
structure Track where
  tid : String
  kind : String
deriving DecidableEq

/-- An `RTCRtpSender`: the track it currently sends, if any. -/
structure Sender where
  track : Option Track
deriving DecidableEq

/-- The one `RTCPeerConnection` the hook maintains: the applied local and
remote descriptions (payloads kept opaque as strings), the remote candidates
successfully applied so far, and the senders created by `addTrack`. -/
structure PeerConn where
  localDescription : Option String
  remoteDescription : Option String
  appliedCandidates : List String
  senders : List Sender
deriving DecidableEq

/-- The client-side state of `useWebRTC`: `peerConnectionRef`,
`localStreamRef` (its tracks), the `isScreenSharing` flag, whether
`socketRef.current` is available, and the `users` snapshot from
`room-joined`. -/
structure ClientState where
  pc : Option PeerConn
  localStream : Option (List Track)
  isScreenSharing : Bool
  socketConnected : Bool
  users : List RUser
deriving DecidableEq

/-- Outcomes of the browser's asynchronous negotiation primitives, which the
hook awaits inside `try`/`catch`: whether applying a given description as the
remote or the local description succeeds, whether `createAnswer` /
`createOffer` succeed, and the opaque descriptions they produce. -/
structure BrowserEnv where
  remoteOk : String → Bool
  answerOk : String → Bool
  localOk : String → Bool
  mkAnswer : String → String
  offerOk : Bool
  offerVal : String

/-- `createPeerConnection`: a fresh connection with no descriptions applied
and one sender per local track (`addTrack` over `localStreamRef`). -/
def createPeerConnection (st : ClientState) : ClientState :=
  { st with pc := some (PeerConn.mk none none []
      ((st.localStream.getD []).map (fun t => { track := some t }))) }

/-- The steps `handleOffer` / `createOffer` perform, in execution order, as
recorded in a trace. -/
inductive NegotiationAction where
  | createPC
  | setRemoteDescription (d : String)
  | createAnswer (a : String)
  | setLocalDescription (d : String)
  | emitAnswer (a : String) (targetId : String)
deriving DecidableEq

/-- A message the client emits over the signaling socket. -/
inductive CEmit where
  | sendOffer (offer : String) (targetId : String)
  | sendAnswer (answer : String) (targetId : String)
  | sendIce (candidate : String) (targetId : String)
deriving DecidableEq

/-- `handleOffer(offer, senderId)`: ensure a peer connection exists, then
`await setRemoteDescription(offer)`, `await createAnswer()`,
`await setLocalDescription(answer)`, and emit the answer with
`targetId: senderId`.  Each await sits inside the surrounding `try`, so a
failure aborts the remaining steps (the `catch` only logs). -/
def handleOffer (env : BrowserEnv) (st : ClientState) (offer senderId : String) :
    ClientState × List NegotiationAction :=
  let ensured :=
    if st.pc.isSome then (st, ([] : List NegotiationAction))
    else (createPeerConnection st, [NegotiationAction.createPC])
  match ensured.1.pc with
  | none => ensured
  | some pc =>
    if env.remoteOk offer then
      let pc2 := { pc with remoteDescription := some offer }
      let tr2 := ensured.2 ++ [NegotiationAction.setRemoteDescription offer]
      if env.answerOk offer then
        let a := env.mkAnswer offer
        let tr3 := tr2 ++ [NegotiationAction.createAnswer a]
        if env.localOk a then
          let pc3 := { pc2 with localDescription := some a }
          let tr4 := tr3 ++ [NegotiationAction.setLocalDescription a]
          if ensured.1.socketConnected then
            ({ ensured.1 with pc := some pc3 },
             tr4 ++ [NegotiationAction.emitAnswer a senderId])
          else ({ ensured.1 with pc := some pc3 }, tr4)
        else ({ ensured.1 with pc := some pc2 }, tr3)
      else ({ ensured.1 with pc := some pc2 }, tr2)
    else ensured

/-- `handleAnswer(answer)`: if a peer connection exists, `await
setRemoteDescription(answer)` (failure only logged); nothing else. -/
def handleAnswer (env : BrowserEnv) (st : ClientState) (answer : String) : ClientState :=
  match st.pc with
  | none => st
  | some pc =>
      if env.remoteOk answer then
        { st with pc := some { pc with remoteDescription := some answer } }
      else st

/-- `RTCPeerConnection.addIceCandidate`: rejects with `InvalidStateError`
when no remote description has been applied, otherwise adds the candidate.
(Failures of well-formed candidates after a remote description exists are
orthogonal to the buffering question and not modelled.) -/
def addIceCandidate (pc : PeerConn) (c : String) : Except String PeerConn :=
  match pc.remoteDescription with
  | none => Except.error "InvalidStateError"
  | some _ => Except.ok { pc with appliedCandidates := pc.appliedCandidates ++ [c] }

/-- `handleIceCandidate(candidate)`: if a peer connection exists, `await
addIceCandidate(candidate)` with the error only logged; the hook keeps no
buffer of candidates, so a failed or skipped apply discards the candidate. -/
def handleIceCandidate (st : ClientState) (c : String) : ClientState :=
  match st.pc with
  | none => st
  | some pc =>
    match addIceCandidate pc c with
    | Except.ok pc2 => { st with pc := some pc2 }
    | Except.error _ => st

/-- The `socket.on('answer', ...)` listener destructures `{ answer, senderId }`
and calls `handleAnswer(answer)`; `senderId` is only logged. -/
def socketOnAnswer (env : BrowserEnv) (st : ClientState)
    (answer senderId : String) : ClientState :=
  handleAnswer env st answer

/-- The `socket.on('ice-candidate', ...)` listener destructures
`{ candidate, senderId }` and calls `handleIceCandidate(candidate)`;
`senderId` is only logged. -/
def socketOnIceCandidate (st : ClientState) (candidate senderId : String) : ClientState :=
  handleIceCandidate st candidate

/-- The `peerConnection.onicecandidate` listener: when the event carries a
candidate and the socket exists, emit `ice-candidate` with
`targetId: 'broadcast'` — a constant placeholder, not a participant id. -/
def onIceCandidateEvent (st : ClientState) (candidate : Option String) : List CEmit :=
  match candidate with
  | none => []
  | some c => if st.socketConnected then [CEmit.sendIce c "broadcast"] else []

/-- `createOffer(targetUserId)`: ensure a peer connection, `await
createOffer()`, `await setLocalDescription(offer)`, then emit the offer with
`targetId: targetUserId`; failures abort the rest (the `catch` only logs). -/
def createOffer (env : BrowserEnv) (st : ClientState) (targetUserId : String) :
    ClientState × List CEmit :=
  let st1 := if st.pc.isSome then st else createPeerConnection st
  match st1.pc with
  | none => (st1, [])
  | some pc =>
    if env.offerOk then
      if env.localOk env.offerVal then
        let st2 := { st1 with pc := some { pc with localDescription := some env.offerVal } }
        if st1.socketConnected then
          (st2, [CEmit.sendOffer env.offerVal targetUserId])
        else (st2, [])
      else (st1, [])
    else (st1, [])

/-- `s.track && s.track.kind === 'video'`. -/
def isVideoSender (s : Sender) : Bool :=
  match s.track with
  | some t => t.kind == "video"
  | none => false

/-- `getSenders().find(video sender)` followed by
`sender.replaceTrack(videoTrack)`: substitute the track of the first video
sender in place; no sender means no change. -/
def replaceFirstVideoSender : List Sender → Track → List Sender
  | [], _ => []
  | s :: rest, t =>
      if isVideoSender s then { track := some t } :: rest
      else s :: replaceFirstVideoSender rest t

/-- `toggleScreenShare`.  Start (`!isScreenSharing`): acquire a display
capture (`screenVideo` stands for `screenStream.getVideoTracks()[0]`) and,
when both the peer connection and a local stream exist, replace the first
video sender's track in place; then set the flag.  Stop: clear the flag and
re-run `initializeMedia()`, which only installs a fresh camera capture
(`cameraTracks`) as the local stream — the peer connection's senders are not
touched.  Neither branch emits any signaling message. -/
def toggleScreenShare (st : ClientState) (screenVideo : Track)
    (cameraTracks : List Track) : ClientState × List CEmit :=
  if !st.isScreenSharing then
    let st1 :=
      match st.pc, st.localStream with
      | some pc, some _ =>
          let pc2 := { pc with senders := replaceFirstVideoSender pc.senders screenVideo }
          { st with pc := some pc2 }
      | _, _ => st
    ({ st1 with isScreenSharing := true }, [])
  else
    ({ st with isScreenSharing := false, localStream := some cameraTracks }, [])

/-- Checks along a trace that every `createAnswer` happens only after
`setRemoteDescription offer` has succeeded. -/
def answerAfterRemote (offer : String) : Bool → List NegotiationAction → Bool
  | _, [] => true
  | seen, NegotiationAction.setRemoteDescription d :: rest =>
      answerAfterRemote offer (seen || d == offer) rest
  | seen, NegotiationAction.createAnswer _ :: rest =>
      seen && answerAfterRemote offer seen rest
  | seen, _ :: rest => answerAfterRemote offer seen rest

/-- Checks along a trace that every emitted answer was first applied as the
local description and is targeted at `target`. -/
def answerLocalThenSent (target : String) : Option String → List NegotiationAction → Bool
  | _, [] => true
  | _, NegotiationAction.setLocalDescription d :: rest =>
      answerLocalThenSent target (some d) rest
  | loc, NegotiationAction.emitAnswer a t :: rest =>
      loc == some a && t == target && answerLocalThenSent target loc rest
  | loc, _ :: rest => answerLocalThenSent target loc rest

/-- A browser environment in which every negotiation primitive succeeds. -/
def allOkEnv : BrowserEnv :=
  { remoteOk := fun _ => true
    answerOk := fun _ => true
    localOk := fun _ => true
    mkAnswer := fun d => "answer-to-" ++ d
    offerOk := true
    offerVal := "offer-sdp" }

/-- A client mid-call: negotiation complete and the remote participant
"peerA" known from the membership snapshot. -/
def cexClient : ClientState :=
  { pc := some { localDescription := some "local-sdp"
                 remoteDescription := some "remote-sdp"
                 appliedCandidates := []
                 senders := [] }
    localStream := some [{ tid := "cam1", kind := "video" }]
    isScreenSharing := false
    socketConnected := true
    users := [{ id := "peerA", name := "Bob", joinedAt := 0 }] }

/-- A client whose peer connection exists but has no remote description yet
(the window in which remote candidates can arrive early). -/
def earlyCandClient : ClientState :=
  { pc := some { localDescription := some "local-sdp"
                 remoteDescription := none
                 appliedCandidates := []
                 senders := [] }
    localStream := some [{ tid := "cam1", kind := "video" }]
    isScreenSharing := false
    socketConnected := true
    users := [{ id := "peerA", name := "Bob", joinedAt := 0 }] }

/-- The display-capture video track of a running screen share. -/
def screenTrack : Track := { tid := "screen1", kind := "video" }

/-- The camera video track `initializeMedia` reacquires. -/
def camTrack : Track := { tid := "cam1", kind := "video" }

/-- A client currently screen sharing: its single video sender sends the
screen track. -/
def sharingClient : ClientState :=
  { pc := some { localDescription := some "local-sdp"
                 remoteDescription := some "remote-sdp"
                 appliedCandidates := []
                 senders := [{ track := some screenTrack }] }
    localStream := some [screenTrack]
    isScreenSharing := true
    socketConnected := true
    users := [{ id := "peerA", name := "Bob", joinedAt := 0 }] }

/-- Server run: `s1` connects, creates a room (random draw rendering
`"0.abc123xyz"`, so the id is `"abc123xyz"`) and joins it. -/
def c4EventsPrefix : List SrvEvent :=
  [SrvEvent.connect "s1",
   SrvEvent.createEv "s1" "0.abc123xyz" 0,
   SrvEvent.joinEv "s1" "abc123xyz" "Alice" 1]

/-- The run above continued: `s2` connects and `create-room` draws the same
base-36 rendering, so `generateRoomId` emits the id of the live session. -/
def c4Events : List SrvEvent :=
  c4EventsPrefix ++ [SrvEvent.connect "s2", SrvEvent.createEv "s2" "0.abc123xyz" 2]

/-- A room at capacity: two members. -/
def fullRoom : Room :=
  { id := "r1"
    users := [{ id := "a", name := "Alice", joinedAt := 0 },
              { id := "b", name := "Bob", joinedAt := 1 }]
    createdAt := 0 }

theorem mapGet_mapSet_self (m : List (String × Room)) (k : String) (v : Room) :
    mapGet (mapSet m k v) k = some v := by
  induction m with
  | nil => simp [mapSet, mapGet]
  | cons p rest ih =>
    rcases p with ⟨k1, v1⟩
    by_cases h : k1 = k
    · subst h; simp [mapSet, mapGet]
    · simp [mapSet, mapGet, h, ih]

theorem mapGet_mapDelete_self (m : List (String × Room)) (k : String) :
    mapGet (mapDelete m k) k = none := by
  induction m with
  | nil => rfl
  | cons p rest ih =>
    rcases p with ⟨k1, v1⟩
    by_cases h : k1 = k
    · subst h; simpa [mapDelete] using ih
    · simp [mapDelete, mapGet, h] at ih ⊢
      exact ih

theorem replaceFirstVideoSender_no_video (senders : List Sender) (t : Track)
    (h : ∀ s ∈ senders, isVideoSender s = false) :
    replaceFirstVideoSender senders t = senders := by
  induction senders with
  | nil => rfl
  | cons s rest ih =>
    have hs : isVideoSender s = false := h s (List.mem_cons_self s rest)
    simp [replaceFirstVideoSender, hs]
    exact ih (fun x hx => h x (List.mem_cons_of_mem s hx))

/-- C10: the listeners for `answer` and `ice-candidate` apply the received
description / candidate to the single peer connection without consulting the
message's `senderId`: two deliveries differing only in `senderId` produce
identical client states. -/
theorem answer_ice_independent_of_sender (env : BrowserEnv) (st : ClientState)
    (answer candidate s1 s2 : String) :
    socketOnAnswer env st answer s1 = socketOnAnswer env st answer s2 ∧
    socketOnIceCandidate st candidate s1 = socketOnIceCandidate st candidate s2 :=
  ⟨rfl, rfl⟩

/-- C4 (amended): `create-room` stores a fresh empty room under
`generateRoomId`'s output and acknowledges that id unconditionally — no
collision check against live sessions takes place, the `Map.set` silently
replacing any live room with the same id. -/
theorem create_room_no_collision_check (st : ServerState) (rnd : String) (now : Nat) :
    (createRoom st rnd now).2 = [Emit.ack (SPayload.roomCreated (generateRoomId rnd))] ∧
    mapGet (createRoom st rnd now).1.rooms (generateRoomId rnd) =
      some { id := generateRoomId rnd, users := [], createdAt := now } :=
  ⟨rfl, mapGet_mapSet_self _ _ _⟩

/-- C4 counterexample: after `s1` creates room `"abc123xyz"` and joins it
(a live session with member Alice), a second `create-room` whose random draw
renders identically returns the *same* identifier — not unique among live
sessions — and its `Map.set` replaces the live room, losing the membership. -/
theorem create_returns_colliding_id :
    (runEvents World.init c4EventsPrefix).st.rooms =
      [("abc123xyz",
        { id := "abc123xyz",
          users := [{ id := "s1", name := "Alice", joinedAt := 1 }],
          createdAt := 0 })] ∧
    (runEvents World.init c4Events).trace.getLast? =
      some ("s2", Emit.ack (SPayload.roomCreated "abc123xyz")) ∧
    (runEvents World.init c4Events).st.rooms =
      [("abc123xyz", { id := "abc123xyz", users := [], createdAt := 2 })] := by
  refine ⟨by decide, by decide, by decide⟩

/-- C3 counterexample: two events after server start — a connection followed
by `create-room` — the registry holds a session whose membership list is
empty, and it persists until some later join or a last-member disconnect.
So a reachable registry state does contain a zero-participant session. -/
theorem empty_room_persists_after_create :
    mapGet (runEvents World.init
        [SrvEvent.connect "s1", SrvEvent.createEv "s1" "0.abc123xyz" 0]).st.rooms
      "abc123xyz" =
      some { id := "abc123xyz", users := [], createdAt := 0 } := by decide

/-- C3 (amended): once a session has members, emptiness cannot persist — when
its last member disconnects, the `disconnect` handler deletes the room in the
same step, and any subsequent join to that identifier fails with
"Room not found" (the `SessionNotFound` surface).  The zero-participant
invariant only fails for freshly created, never-joined sessions. -/
theorem last_disconnect_destroys_room (st : ServerState) (sock : SocketCtx)
    (rid : String) (room : Room)
    (hrid : sock.roomId = some rid)
    (hroom : mapGet st.rooms rid = some room)
    (hlast : room.users.filter (fun u => u.id != sock.id) = []) :
    mapGet (disconnectHandler st sock).1.rooms rid = none ∧
    (∀ (sock2 : SocketCtx) (userName : String) (now : Nat),
      joinRoom (disconnectHandler st sock).1 sock2 rid userName now =
        ((disconnectHandler st sock).1, sock2,
         [Emit.toSelf "error" (SPayload.errorMsg "Room not found")])) := by
  have hstep : (disconnectHandler st sock).1 = { rooms := mapDelete st.rooms rid } := by
    simp [disconnectHandler, hrid, hroom, hlast]
  have hget : mapGet (disconnectHandler st sock).1.rooms rid = none := by
    rw [hstep]
    exact mapGet_mapDelete_self st.rooms rid
  refine ⟨hget, ?_⟩
  intro sock2 userName now
  unfold joinRoom
  rw [hget]

/-- Witness for the amended C3: Alice is the sole member of room "r1"; her
disconnect removes the room from the registry. -/
theorem last_disconnect_destroys_room_witness :
    mapGet (disconnectHandler
        { rooms := [("r1", { id := "r1", users := [{ id := "a", name := "Alice", joinedAt := 0 }], createdAt := 0 })] }
        { id := "a", roomId := some "r1", userName := some "Alice", joined := ["r1"] }).1.rooms
      "r1" = none :=
  (last_disconnect_destroys_room
    { rooms := [("r1", { id := "r1", users := [{ id := "a", name := "Alice", joinedAt := 0 }], createdAt := 0 })] }
    { id := "a", roomId := some "r1", userName := some "Alice", joined := ["r1"] }
    "r1"
    { id := "r1", users := [{ id := "a", name := "Alice", joinedAt := 0 }], createdAt := 0 }
    rfl (by decide) (by decide)).1

/-- C2: each relay handler (`offer`, `answer`, `ice-candidate`) performs a
single `socket.to(targetId).emit` carrying the payload and the
transport-derived sender id, and nothing else — no queueing, no retry, no
acknowledgment or error to the sender.  Under socket.io delivery, provided
`targetId` is not some session room other sockets joined (i.e., it is used as
a connection name, the way the clients use it), the message reaches at most
the connection named `targetId`, and reaches it only while connected: if no
connected socket bears that id, delivery is empty — a silent drop. -/
theorem relay_forwards_only_to_target (conns : List SocketCtx) (sock : SocketCtx)
    (offer answer candidate targetId : String)
    (hnojoin : ∀ s ∈ conns, targetId ∉ s.joined) :
    relayOffer sock offer targetId =
      [Emit.toRoom targetId "offer" (SPayload.offerMsg offer sock.id)] ∧
    relayAnswer sock answer targetId =
      [Emit.toRoom targetId "answer" (SPayload.answerMsg answer sock.id)] ∧
    relayIce sock candidate targetId =
      [Emit.toRoom targetId "ice-candidate" (SPayload.iceMsg candidate sock.id)] ∧
    (∀ d ∈ deliverTo conns sock.id targetId, d = targetId ∧ ∃ s ∈ conns, s.id = d) ∧
    ((∀ s ∈ conns, s.id ≠ targetId) → deliverTo conns sock.id targetId = []) := by
  refine ⟨rfl, rfl, rfl, ?_, ?_⟩
  · intro d hd
    simp only [deliverTo, List.mem_map, List.mem_filter, Bool.and_eq_true,
      bne_iff_ne, ne_eq, inSocketRoom, Bool.or_eq_true, beq_iff_eq,
      decide_eq_true_eq] at hd
    obtain ⟨s, ⟨hs, _, hroom⟩, hds⟩ := hd
    rcases hroom with hid | hjoin
    · exact ⟨by rw [← hds, hid], s, hs, hds⟩
    · exact absurd hjoin (hnojoin s hs)
  · intro hnone
    have : conns.filter (fun s => s.id != sock.id && inSocketRoom s targetId) = [] := by
      rw [List.filter_eq_nil_iff]
      intro s hs
      simp only [Bool.and_eq_true, bne_iff_ne, ne_eq, inSocketRoom,
        Bool.or_eq_true, beq_iff_eq, decide_eq_true_eq, not_and, not_or]
      intro _
      exact ⟨hnone s hs, hnojoin s hs⟩
    simp [deliverTo, this]

/-- Witness for C2: "ghost" is not among the connected sockets, so an
offer/answer/candidate relayed at it is delivered to nobody. -/
theorem relay_forwards_only_to_target_witness :
    deliverTo [{ id := "alice", roomId := some "r1", userName := some "A", joined := ["r1"] }]
      "bob" "ghost" = [] :=
  (relay_forwards_only_to_target
      [{ id := "alice", roomId := some "r1", userName := some "A", joined := ["r1"] }]
      { id := "bob", roomId := some "r1", userName := some "B", joined := ["r1"] }
      "o" "a" "c" "ghost" (by decide)).2.2.2.2 (by decide)

/-- C8: a join request on a room that already has 2 members, from a
connection that is not one of them, is answered with the "Room is full"
error only: the registry, the socket context, and hence the membership list
are unchanged, and nothing is queued. -/
theorem join_full_room_rejected (st : ServerState) (sock : SocketCtx)
    (roomId userName : String) (now : Nat) (room : Room)
    (hroom : mapGet st.rooms roomId = some room)
    (hnotmem : room.users.find? (fun u => u.id == sock.id) = none)
    (hfull : 2 ≤ room.users.length) :
    joinRoom st sock roomId userName now =
      (st, sock, [Emit.toSelf "error" (SPayload.errorMsg "Room is full")]) := by
  unfold joinRoom
  rw [hroom]
  simp [hnotmem, hfull]

/-- Witness for C8: Carol's join to the two-member room "r1" is rejected and
the registry keeps exactly its previous state. -/
theorem join_full_room_rejected_witness :
    joinRoom { rooms := [("r1", fullRoom)] } { id := "c", roomId := none, userName := none, joined := [] }
      "r1" "Carol" 5 =
      ({ rooms := [("r1", fullRoom)] }, { id := "c", roomId := none, userName := none, joined := [] },
       [Emit.toSelf "error" (SPayload.errorMsg "Room is full")]) :=
  join_full_room_rejected _ _ _ _ _ fullRoom (by decide) (by decide) (by decide)

/-- C9: a join from a connection already in the room re-emits the
`room-joined` snapshot (current members plus the `users[0]`-based initiator
flag) without any error and without touching the registry or the socket; in
a duplicate-free membership list the member's id occurs exactly once. -/
theorem duplicate_join_idempotent (st : ServerState) (sock : SocketCtx)
    (roomId userName : String) (now : Nat) (room : Room) (u : RUser)
    (hroom : mapGet st.rooms roomId = some room)
    (hmem : room.users.find? (fun x => x.id == sock.id) = some u)
    (hnodup : (room.users.map (fun x => x.id)).Nodup) :
    joinRoom st sock roomId userName now =
      (st, sock,
       [Emit.toSelf "room-joined"
          (SPayload.roomJoined roomId room.users (headIsSelf room.users sock.id))]) ∧
    (room.users.map (fun x => x.id)).count sock.id = 1 := by
  constructor
  · unfold joinRoom
    rw [hroom]
    simp [hmem]
  · have hu : u ∈ room.users := List.mem_of_find?_eq_some hmem
    have hid : (u.id == sock.id) = true := by simpa using List.find?_some hmem
    have hmem2 : sock.id ∈ room.users.map (fun x => x.id) :=
      List.mem_map.mpr ⟨u, hu, beq_iff_eq.mp hid⟩
    exact List.count_eq_one_of_mem hnodup hmem2

/-- Witness for C9: Alice re-joins the full room she is already in; she is
listed once and the reply is the idempotent snapshot. -/
theorem duplicate_join_idempotent_witness :
    joinRoom { rooms := [("r1", fullRoom)] }
      { id := "a", roomId := some "r1", userName := some "Alice", joined := ["r1"] }
      "r1" "Alice" 9 =
      ({ rooms := [("r1", fullRoom)] },
       { id := "a", roomId := some "r1", userName := some "Alice", joined := ["r1"] },
       [Emit.toSelf "room-joined" (SPayload.roomJoined "r1" fullRoom.users true)]) :=
  (duplicate_join_idempotent _ _ "r1" "Alice" 9 fullRoom
    { id := "a", name := "Alice", joinedAt := 0 } (by decide) (by decide) (by decide)).1

/-- C7: along the trace of `handleOffer`, an answer is only constructed after
the received offer has been applied as the remote description, and any
emitted answer was first applied as the local description and is targeted at
the offer's sender.  This holds in every client state and for every outcome
of the browser's asynchronous steps. -/
theorem offer_applied_before_answer (env : BrowserEnv) (st : ClientState)
    (offer senderId : String) :
    answerAfterRemote offer false (handleOffer env st offer senderId).2 = true ∧
    answerLocalThenSent senderId none (handleOffer env st offer senderId).2 = true := by
  rcases hpc : st.pc with _ | pc <;>
    · simp only [handleOffer, hpc, Option.isSome_none, Option.isSome_some,
        Bool.false_eq_true, if_false, if_true, createPeerConnection]
      split_ifs <;>
        simp [answerAfterRemote, answerLocalThenSent]

/-- C1 counterexample: in a client that knows exactly one remote participant,
`"peerA"`, a locally generated candidate is emitted with the placeholder
target `"broadcast"`, which is not the remote participant's identifier. -/
theorem candidate_not_targeted_at_peer :
    onIceCandidateEvent cexClient (some "cand1") = [CEmit.sendIce "cand1" "broadcast"] ∧
    cexClient.users.map (fun u => u.id) = ["peerA"] ∧
    ("broadcast" : String) ≠ "peerA" :=
  ⟨by decide, by decide, by decide⟩

/-- C1 (amended): locally generated candidates are emitted immediately (one
signaling message per candidate, whenever the socket exists), but always
targeted at the constant `"broadcast"` placeholder — unlike offers, which
`createOffer` targets at the given participant id, and answers, which
`handleOffer` targets at the offer's sender. -/
theorem candidate_targets_broadcast (st : ClientState) (c : String)
    (h : st.socketConnected = true) :
    onIceCandidateEvent st (some c) = [CEmit.sendIce c "broadcast"] ∧
    (∀ (env : BrowserEnv) (target : String) (e : CEmit),
        e ∈ (createOffer env st target).2 → e = CEmit.sendOffer env.offerVal target) ∧
    (∀ (env : BrowserEnv) (offer senderId a t : String),
        NegotiationAction.emitAnswer a t ∈ (handleOffer env st offer senderId).2 →
          t = senderId) := by
  refine ⟨by simp [onIceCandidateEvent, h], ?_, ?_⟩
  · intro env target e he
    rcases hpc : st.pc with _ | pc <;>
      · simp only [createOffer, hpc, Option.isSome_none, Option.isSome_some,
          Bool.false_eq_true, if_false, if_true, createPeerConnection] at he
        split_ifs at he <;> simp at he <;> simp [he]
  · intro env offer senderId a t he
    rcases hpc : st.pc with _ | pc <;>
      · simp only [handleOffer, hpc, Option.isSome_none, Option.isSome_some,
          Bool.false_eq_true, if_false, if_true, createPeerConnection] at he
        split_ifs at he <;> simp at he <;> simp [he]

/-- Witness for the amended C1: the mid-call client emits its candidate to
`"broadcast"`. -/
theorem candidate_targets_broadcast_witness :
    onIceCandidateEvent cexClient (some "cand2") = [CEmit.sendIce "cand2" "broadcast"] :=
  (candidate_targets_broadcast cexClient "cand2" rfl).1

/-- C5 counterexample: a candidate arriving while the peer connection has no
remote description is discarded (the client state is unchanged — there is no
buffer), and after an answer is later applied, so a remote description
exists, the candidate set is still empty: the early candidate was never
applied. -/
theorem early_candidate_dropped :
    handleIceCandidate earlyCandClient "cand-early" = earlyCandClient ∧
    (handleAnswer allOkEnv (handleIceCandidate earlyCandClient "cand-early") "answer-sdp").pc =
      some (PeerConn.mk (some "local-sdp") (some "answer-sdp") [] []) :=
  ⟨by decide, by decide⟩

/-- C5 (amended): `handleIceCandidate` keeps no buffer: with no remote
description the apply attempt fails and the candidate is discarded with the
state unchanged; with a remote description the candidate is applied at once;
with no peer connection at all the candidate is silently ignored. -/
theorem early_candidate_not_buffered (st : ClientState) (pc : PeerConn) (c : String)
    (h : st.pc = some pc) :
    (pc.remoteDescription = none → handleIceCandidate st c = st) ∧
    (∀ d, pc.remoteDescription = some d →
        handleIceCandidate st c =
          { st with pc := some { pc with appliedCandidates := pc.appliedCandidates ++ [c] } }) ∧
    (∀ st2 : ClientState, st2.pc = none → handleIceCandidate st2 c = st2) := by
  refine ⟨?_, ?_, ?_⟩
  · intro hrd
    simp [handleIceCandidate, h, addIceCandidate, hrd]
  · intro d hrd
    simp [handleIceCandidate, h, addIceCandidate, hrd]
  · intro st2 h2
    simp [handleIceCandidate, h2]

/-- Witness for the amended C5: the early candidate leaves the waiting
client unchanged. -/
theorem early_candidate_not_buffered_witness :
    handleIceCandidate earlyCandClient "cand-w" = earlyCandClient :=
  (early_candidate_not_buffered earlyCandClient
    (PeerConn.mk (some "local-sdp") none [] []) "cand-w" rfl).1 rfl

/-- C6 counterexample: stopping a screen share swaps the local stream back to
the camera and clears the flag, but the peer connection's video sender still
holds the screen track — the claimed in-place sender substitution does not
happen on revert. -/
theorem revert_does_not_replace_sender_track :
    ((toggleScreenShare sharingClient screenTrack [camTrack]).1.pc.map (fun pc => pc.senders)) =
      some [{ track := some screenTrack }] ∧
    (toggleScreenShare sharingClient screenTrack [camTrack]).1.localStream = some [camTrack] ∧
    (toggleScreenShare sharingClient screenTrack [camTrack]).1.isScreenSharing = false ∧
    (toggleScreenShare sharingClient screenTrack [camTrack]).2 = [] ∧
    screenTrack ≠ camTrack :=
  ⟨by decide, by decide, by decide, by decide, by decide⟩

/-- C6 (amended): starting a screen share substitutes the screen track into
the first video sender in place and emits no signaling message; with no
video sender (`replaceFirstVideoSender` is the identity) or no peer
connection it is a local-only no-op; stopping a share only clears the flag
and reinstalls the camera capture as the local stream — the senders are left
untouched and, again, nothing is emitted. -/
theorem screen_share_track_replacement (st : ClientState) (screenVideo : Track)
    (cameraTracks : List Track) :
    (∀ pc ls, st.isScreenSharing = false → st.pc = some pc → st.localStream = some ls →
        toggleScreenShare st screenVideo cameraTracks =
          ({ st with
              pc := some { pc with senders := replaceFirstVideoSender pc.senders screenVideo },
              isScreenSharing := true }, [])) ∧
    (∀ (t : Track) (senders : List Sender),
        (∀ s ∈ senders, isVideoSender s = false) →
          replaceFirstVideoSender senders t = senders) ∧
    (st.isScreenSharing = false → st.pc = none →
        toggleScreenShare st screenVideo cameraTracks =
          ({ st with isScreenSharing := true }, [])) ∧
    (st.isScreenSharing = true →
        toggleScreenShare st screenVideo cameraTracks =
          ({ st with isScreenSharing := false, localStream := some cameraTracks }, [])) := by
  refine ⟨?_, fun t senders hs => replaceFirstVideoSender_no_video senders t hs, ?_, ?_⟩
  · intro pc ls h1 h2 h3
    simp [toggleScreenShare, h1, h2, h3]
  · intro h1 h2
    simp [toggleScreenShare, h1, h2]
  · intro h1
    simp [toggleScreenShare, h1]

/-- Witness for the amended C6: stopping the share on the sharing client
changes only the flag and the local stream and emits nothing. -/
theorem screen_share_track_replacement_witness :
    toggleScreenShare sharingClient screenTrack [camTrack] =
      ({ sharingClient with isScreenSharing := false, localStream := some [camTrack] }, []) :=
  (screen_share_track_replacement sharingClient screenTrack [camTrack]).2.2.2 rfl

end VideoChat
